import Mathlib

/-
Verification of the pdfEdit client's coordinate-transform and
annotation-placement model, shallowly embedded from
src/client/src/components/PDFEditor.tsx, PDFUploader.tsx and App.tsx.

Numeric values (pixel coordinates, zoom factors, sizes) are modelled as
rationals; stored font sizes as integers (they start at 11 and change in
unit steps). JavaScript's optional field access with a default,
written in the source as (a.fontSize || 11), is modelled faithfully,
including the fact that || treats 0 as falsy.
-/

namespace PdfEdit

/-- The active tool, from the TS union type Tool = 'text' | 'signature' | 'none'. -/
inductive Tool
  | text
  | signature
  | none
deriving DecidableEq, Repr

/-- The kind of a drag target, from the draggedType state
('text' | 'signature'). -/
inductive DragKind
  | text
  | signature
deriving DecidableEq, Repr

/-- One text annotation, from the textAnnotations element type:
x, y, text, pageNumber, fontSize? (optional). -/
structure TextAnn where
  x : ℚ
  y : ℚ
  text : String
  pageNumber : ℕ
  fontSize : Option ℤ
deriving DecidableEq, Repr

/-- One signature annotation, from the signatureAnnotations element type:
x, y, dataUrl, width, height, pageNumber. -/
structure SigAnn where
  x : ℚ
  y : ℚ
  dataUrl : String
  width : ℚ
  height : ℚ
  pageNumber : ℕ
deriving DecidableEq, Repr

/-- JavaScript's (v || 11) read of the optional fontSize field: undefined
and 0 are falsy, any other number is returned as-is. -/
def fsOr (v : Option ℤ) : ℤ :=
  match v with
  | Option.none => 11
  | Option.some n => if n = 0 then 11 else n

/-- The PDFEditor component state relevant to placement, dragging and
export: scale (zoom), pageNumber, the two annotation collections, the
active tool, the pending placement position (editingPosition), the text
prompt state and the drag session. -/
structure EditorState where
  scale : ℚ
  pageNumber : ℕ
  textAnns : List TextAnn
  signatureAnns : List SigAnn
  activeTool : Tool
  editingPosition : Option (ℚ × ℚ)
  editingText : Bool
  newTextAnn : String
  showSignatureCanvas : Bool
  draggedAnn : Option ℕ
  draggedType : DragKind
deriving DecidableEq, Repr

/-- Screen-to-document conversion: both pointer offsets divided by the
zoom factor, as inlined at PDFEditor.tsx lines 91-92
((e.clientX - rect.left) / scale, (e.clientY - rect.top) / scale). -/
def toDocumentSpace (sx sy z : ℚ) : ℚ × ℚ := (sx / z, sy / z)

/-- Document-to-screen conversion: both coordinates multiplied by the
zoom factor, as inlined in the render style at PDFEditor.tsx lines
360-361 (left: annotation.x * scale, top: annotation.y * scale). -/
def toScreenSpace (dx dy z : ℚ) : ℚ × ℚ := (dx * z, dy * z)

/-- handlePageClick: with no active tool the click is ignored; with the
text tool the click position is converted to document space and the text
prompt opens there; with the signature tool the pending position is set
to the page surface's center converted to document space
(pageRect.width / 2 / scale, pageRect.height / 2 / scale) and the
signature-capture widget opens. -/
def handlePageClick (clientX clientY rectLeft rectTop rectWidth rectHeight : ℚ)
    (s : EditorState) : EditorState :=
  match s.activeTool with
  | Tool.none => s
  | Tool.text =>
      { s with
        editingPosition :=
          Option.some ((clientX - rectLeft) / s.scale, (clientY - rectTop) / s.scale),
        editingText := true }
  | Tool.signature =>
      { s with
        editingPosition :=
          Option.some (rectWidth / 2 / s.scale, rectHeight / 2 / s.scale),
        showSignatureCanvas := true }

/-- Leading and trailing whitespace removal on a character list, as
JavaScript's String.prototype.trim performs on the prompt's string. -/
def trimChars (l : List Char) : List Char :=
  ((l.dropWhile Char.isWhitespace).reverse.dropWhile Char.isWhitespace).reverse

/-- JavaScript's s.trim(): drop leading and trailing whitespace. -/
def jsTrim (s : String) : String := String.mk (trimChars s.data)

/-- handleTextSubmit: if the prompt's string has a non-whitespace
character (newTextAnnotation.trim() is truthy) and a pending position
exists, append a new text annotation holding the submitted string
verbatim at that position with fontSize 11, then clear the prompt, the
pending position and the active tool; otherwise do nothing. -/
def handleTextSubmit (s : EditorState) : EditorState :=
  if jsTrim s.newTextAnn ≠ "" then
    match s.editingPosition with
    | Option.some p =>
        { s with
          textAnns := s.textAnns ++
            [{ x := p.1, y := p.2, text := s.newTextAnn,
               pageNumber := s.pageNumber, fontSize := Option.some 11 }],
          newTextAnn := "",
          editingText := false,
          editingPosition := Option.none,
          activeTool := Tool.none }
    | Option.none => s
  else s

/-- handleSignatureAdd: the committed position is the pending
editingPosition when one is set (JS objects are truthy), else the center
of the queried page element divided by the zoom, else the literal
fallback (300, 400). A 200x100 signature annotation is appended at that
position on the current page; the widget closes, the pending position
clears, and the active tool resets. -/
def handleSignatureAdd (dataUrl : String) (pageElement : Option (ℚ × ℚ))
    (s : EditorState) : EditorState :=
  let defaultPosition : ℚ × ℚ :=
    match pageElement with
    | Option.some wh => (wh.1 / 2 / s.scale, wh.2 / 2 / s.scale)
    | Option.none => (300, 400)
  let position : ℚ × ℚ :=
    match s.editingPosition with
    | Option.some p => p
    | Option.none => defaultPosition
  { s with
    signatureAnns := s.signatureAnns ++
      [{ x := position.1, y := position.2, dataUrl := dataUrl,
         width := 200, height := 100, pageNumber := s.pageNumber }],
    showSignatureCanvas := false,
    editingPosition := Option.none,
    activeTool := Tool.none }

/-- handleAnnotationMouseDown: opens a drag session on (index, kind). -/
def handleAnnMouseDown (index : ℕ) (kind : DragKind) (s : EditorState) : EditorState :=
  { s with draggedAnn := Option.some index, draggedType := kind }

/-- JavaScript Array.prototype.map with an index argument, counting from
a given start index. -/
def mapIdxFrom (f : ℕ → α → α) : ℕ → List α → List α
  | _, [] => []
  | n, a :: as => f n a :: mapIdxFrom f (n + 1) as

/-- prev.map((annotation, index) => ...) as used by the drag handler. -/
def jsMapIdx (f : ℕ → α → α) (l : List α) : List α := mapIdxFrom f 0 l

/-- handleMouseMove from the drag effect: when a drag session is open and
the document surface's bounding rect is available, the dragged
annotation (selected by draggedType and index) gets position
((clientX - rect.left) / scale, (clientY - rect.top) / scale); every
other entry is returned unchanged by the map. -/
def handleMouseMove (clientX clientY : ℚ) (rect : Option (ℚ × ℚ))
    (s : EditorState) : EditorState :=
  match s.draggedAnn with
  | Option.none => s
  | Option.some i =>
    match rect with
    | Option.none => s
    | Option.some lt =>
      match s.draggedType with
      | DragKind.text =>
          { s with
            textAnns := jsMapIdx (fun j a =>
              if j = i then
                { a with x := (clientX - lt.1) / s.scale, y := (clientY - lt.2) / s.scale }
              else a) s.textAnns }
      | DragKind.signature =>
          { s with
            signatureAnns := jsMapIdx (fun j a =>
              if j = i then
                { a with x := (clientX - lt.1) / s.scale, y := (clientY - lt.2) / s.scale }
              else a) s.signatureAnns }

/-- handleMouseUp: closes the drag session, touching nothing else. -/
def handleMouseUp (s : EditorState) : EditorState :=
  { s with draggedAnn := Option.none }

/-- The font-size buttons on a text annotation: increment is
fontSize := (a.fontSize || 11) + 1, decrement is
fontSize := Math.max(8, (a.fontSize || 11) - 1). -/
inductive FSOp
  | inc
  | dec
deriving DecidableEq, Repr

/-- One press of a font-size button on one text annotation. -/
def applyFSOp (a : TextAnn) : FSOp → TextAnn
  | FSOp.inc => { a with fontSize := Option.some (fsOr a.fontSize + 1) }
  | FSOp.dec => { a with fontSize := Option.some (max 8 (fsOr a.fontSize - 1)) }

/-- A sequence of font-size button presses applied left to right. -/
def applyFSOps (ops : List FSOp) (a : TextAnn) : TextAnn :=
  ops.foldl applyFSOp a

/-- The signature shrink button: width := Math.max(50, a.width * 0.9),
height := Math.max(25, a.height * 0.9). -/
def shrinkSig (a : SigAnn) : SigAnn :=
  { a with width := max 50 (a.width * (9 / 10)),
           height := max 25 (a.height * (9 / 10)) }

/-- The signature grow button: width := a.width * 1.1,
height := a.height * 1.1 (no ceiling). -/
def growSig (a : SigAnn) : SigAnn :=
  { a with width := a.width * (11 / 10), height := a.height * (11 / 10) }

/-- A draw-text instruction as handed to page.drawText in
handleDownload: text, position, size, RGB fill and opacity. -/
structure DrawTextInstr where
  text : String
  x : ℚ
  y : ℚ
  size : ℤ
  colorR : ℚ
  colorG : ℚ
  colorB : ℚ
  opacity : ℚ
deriving DecidableEq, Repr

/-- A draw-image instruction as handed to page.drawImage in
handleDownload: image data, position, width and height. -/
structure DrawImageInstr where
  dataUrl : String
  x : ℚ
  y : ℚ
  width : ℚ
  height : ℚ
deriving DecidableEq, Repr

/-- The instruction handleDownload issues for one text annotation, given
the natural height of its owning page: drawn at
(annotation.x, height - annotation.y) with hard-coded size 11, black
fill rgb(0,0,0) and opacity 0.95. -/
def textInstrAt (h : ℚ) (a : TextAnn) : DrawTextInstr :=
  { text := a.text, x := a.x, y := h - a.y, size := 11,
    colorR := 0, colorG := 0, colorB := 0, opacity := 19 / 20 }

/-- The instruction handleDownload issues for one signature annotation,
given the natural height of its owning page: drawn at
(annotation.x, height - annotation.y - annotation.height) with the
stored width and height. -/
def imageInstrAt (h : ℚ) (a : SigAnn) : DrawImageInstr :=
  { dataUrl := a.dataUrl, x := a.x,
    y := h - a.y - a.height, width := a.width, height := a.height }

/-- pages[annotation.pageNumber - 1].getSize().height: looks up the
owning page's natural height; a missing page makes the whole export
fail (the draw loop throws and is caught). -/
def pageHeightFor (pages : List ℚ) (pageNumber : ℕ) : Option ℚ :=
  pages.get? (pageNumber - 1)

/-- A loop over a list in which any failing step aborts the whole run,
as a thrown exception does in handleDownload's for-of loops. -/
def mapOpt (f : α → Option β) : List α → Option (List β)
  | [] => Option.some []
  | a :: as => (f a).bind (fun b => (mapOpt f as).map (fun bs => b :: bs))

/-- handleDownload's drawing phase: every text annotation then every
signature annotation, each resolved against its owning page's natural
height, in store order; any failed page lookup aborts the export. -/
def handleDownloadInstrs (pages : List ℚ) (s : EditorState) :
    Option (List DrawTextInstr × List DrawImageInstr) :=
  (mapOpt (fun a => (pageHeightFor pages a.pageNumber).map (fun hh => textInstrAt hh a)) s.textAnns).bind
    (fun ts =>
      (mapOpt (fun a => (pageHeightFor pages a.pageNumber).map (fun hh => imageInstrAt hh a)) s.signatureAnns).map
        (fun imgs => (ts, imgs)))

/-- A toast notification's variant ('default' or 'destructive'). -/
inductive ToastVariant
  | standard
  | destructive
deriving DecidableEq, Repr

/-- A user-visible toast notification. -/
structure Toast where
  title : String
  description : String
  variant : ToastVariant
deriving DecidableEq, Repr

/-- An uploaded file as seen by the validator: name and MIME type. -/
structure UploadFile where
  name : String
  mime : String
deriving DecidableEq, Repr

/-- App-level state: the selected file, unset until a valid upload. -/
structure AppState where
  selectedFile : Option UploadFile
deriving DecidableEq, Repr

/-- App.handleFileUpload: store the accepted file as the document
source. -/
def handleFileUpload (f : UploadFile) (s : AppState) : AppState :=
  { s with selectedFile := Option.some f }

/-- PDFUploader.validateAndUploadFile combined with the App callback: a
non-PDF MIME type raises a destructive toast and returns without calling
onFileUpload; a PDF is passed to handleFileUpload and a success toast is
raised. Returns the resulting app state and the toasts raised. -/
def validateAndUploadFile (f : UploadFile) (s : AppState) : AppState × List Toast :=
  if f.mime ≠ "application/pdf" then
    (s, [{ title := "Invalid file type",
           description := "Please upload a PDF file",
           variant := ToastVariant.destructive }])
  else
    (handleFileUpload f s,
     [{ title := "File uploaded",
        description := f.name ++ " has been uploaded successfully",
        variant := ToastVariant.standard }])

/-- App renders the PDFEditor (which mounts the page renderer) exactly
when a selected file is present; otherwise it renders the uploader. -/
def editorShown (s : AppState) : Bool :=
  s.selectedFile.isSome

/-- An editor state with no annotations, zoom 1.0, page 1, no active
tool and no open prompt or drag session: the state right after a
document loads. Concrete states below derive from it. -/
def emptyEditor : EditorState :=
  { scale := 1, pageNumber := 1, textAnns := [], signatureAnns := [],
    activeTool := Tool.none, editingPosition := Option.none,
    editingText := false, newTextAnn := "",
    showSignatureCanvas := false, draggedAnn := Option.none,
    draggedType := DragKind.text }

/-- A text annotation at document position (50, 80) on page 1 with the
default font size 11. -/
def textAnnC4 : TextAnn :=
  { x := 50, y := 80, text := "note", pageNumber := 1, fontSize := Option.some 11 }

/-- An editor state holding exactly textAnnC4. -/
def stateC4 : EditorState := { emptyEditor with textAnns := [textAnnC4] }

/-- A signature annotation at document position (50, 80) with height 100
on page 1. -/
def sigAnnC5 : SigAnn :=
  { x := 50, y := 80, dataUrl := "sig", width := 200, height := 100, pageNumber := 1 }

/-- An editor state holding exactly sigAnnC5. -/
def stateC5 : EditorState := { emptyEditor with signatureAnns := [sigAnnC5] }

/-- A text annotation whose font size was adjusted away from the
default: one increment press took it from 11 to 12. -/
def textAnnC1 : TextAnn :=
  { x := 50, y := 80, text := "note", pageNumber := 1, fontSize := Option.some 12 }

/-- An editor state holding exactly textAnnC1. -/
def stateC1 : EditorState := { emptyEditor with textAnns := [textAnnC1] }

/-- An editor state with the signature tool active and no pending
position, about to receive a page click. -/
def stateC2 : EditorState := { emptyEditor with activeTool := Tool.signature }

/-- A text annotation with the default font size 11. -/
def textAnn11 : TextAnn :=
  { x := 0, y := 0, text := "t", pageNumber := 1, fontSize := Option.some 11 }

/-- A text annotation already at the font-size floor 8. -/
def textAnn8 : TextAnn :=
  { x := 0, y := 0, text := "t", pageNumber := 1, fontSize := Option.some 8 }

/-- A signature annotation at the initial committed size 200x100. -/
def sigC7 : SigAnn :=
  { x := 0, y := 0, dataUrl := "d", width := 200, height := 100, pageNumber := 1 }

/-- A plain-text file, the rejected upload of the spec's example. -/
def fileTxt : UploadFile := { name := "notes.txt", mime := "text/plain" }

/-- The app state before any successful upload. -/
def appEmpty : AppState := { selectedFile := Option.none }

/-- The toast raised for a rejected upload. -/
def invalidToast : Toast :=
  { title := "Invalid file type", description := "Please upload a PDF file",
    variant := ToastVariant.destructive }

/-- First signature annotation of the drag scenario, at (1, 2). -/
def sigA : SigAnn :=
  { x := 1, y := 2, dataUrl := "d0", width := 200, height := 100, pageNumber := 1 }

/-- Second signature annotation of the drag scenario, at (3, 4). -/
def sigB : SigAnn :=
  { x := 3, y := 4, dataUrl := "d1", width := 200, height := 100, pageNumber := 1 }

/-- An editor state with an open drag session on signature index 0. -/
def state9 : EditorState :=
  { emptyEditor with
    signatureAnns := [sigA, sigB]
    draggedAnn := Option.some 0
    draggedType := DragKind.signature }

/-- An editor state with the text prompt open at pending position (5, 6)
holding a string with leading and trailing whitespace. -/
def state10 : EditorState :=
  { emptyEditor with
    editingPosition := Option.some (5, 6)
    editingText := true
    newTextAnn := "  hi  "
    activeTool := Tool.text }

/- Helper lemmas shared by the claim theorems. -/

theorem mapIdxFrom_get? (f : ℕ → α → α) (n j : ℕ) (l : List α) :
    (mapIdxFrom f n l).get? j = (l.get? j).map (f (n + j)) := by
  induction l generalizing n j with
  | nil => simp [mapIdxFrom]
  | cons a as ih =>
    cases j with
    | zero => simp [mapIdxFrom]
    | succ j =>
      have hn : n + 1 + j = n + (j + 1) := by omega
      simp only [mapIdxFrom, List.get?_cons_succ, ih (n + 1) j, hn]

theorem jsMapIdx_get? (f : ℕ → α → α) (j : ℕ) (l : List α) :
    (jsMapIdx f l).get? j = (l.get? j).map (f j) := by
  simpa using mapIdxFrom_get? f 0 j l

theorem mapOpt_get? {f : α → Option β} {l : List α} {l' : List β}
    (h : mapOpt f l = Option.some l') (i : ℕ) (a : α)
    (ha : l.get? i = Option.some a) :
    ∃ b, f a = Option.some b ∧ l'.get? i = Option.some b := by
  induction l generalizing l' i with
  | nil => simp at ha
  | cons x xs ih =>
    rw [mapOpt, Option.bind_eq_some] at h
    obtain ⟨b, hfx, hmap⟩ := h
    rw [Option.map_eq_some'] at hmap
    obtain ⟨bs, hxs, rfl⟩ := hmap
    cases i with
    | zero =>
      rw [List.get?_cons_zero, Option.some.injEq] at ha
      subst ha
      exact ⟨b, hfx, rfl⟩
    | succ i =>
      rw [List.get?_cons_succ] at ha
      obtain ⟨b', hfb', hbs⟩ := ih hxs i ha
      exact ⟨b', hfb', by simpa using hbs⟩

theorem handleDownloadInstrs_parts {pages : List ℚ} {s : EditorState}
    {ts : List DrawTextInstr} {imgs : List DrawImageInstr}
    (h : handleDownloadInstrs pages s = Option.some (ts, imgs)) :
    mapOpt (fun a => (pageHeightFor pages a.pageNumber).map (fun hh => textInstrAt hh a)) s.textAnns
      = Option.some ts ∧
    mapOpt (fun a => (pageHeightFor pages a.pageNumber).map (fun hh => imageInstrAt hh a)) s.signatureAnns
      = Option.some imgs := by
  rw [handleDownloadInstrs, Option.bind_eq_some] at h
  obtain ⟨ts0, hts, hmap⟩ := h
  rw [Option.map_eq_some'] at hmap
  obtain ⟨imgs0, himgs, heq⟩ := hmap
  rw [Prod.mk.injEq] at heq
  obtain ⟨h1, h2⟩ := heq
  subst h1
  subst h2
  exact ⟨hts, himgs⟩

/-- Claim C3: converting screen coordinates to document space (division
by the zoom factor) and back (multiplication by the zoom factor)
returns exactly the original coordinates, for every zoom factor in the
supported range [0.5, 2.0]. -/
theorem screen_document_roundtrip (sx sy z : ℚ)
    (h1 : 1 / 2 ≤ z) (h2 : z ≤ 2) :
    toScreenSpace (toDocumentSpace sx sy z).1 (toDocumentSpace sx sy z).2 z = (sx, sy) := by
  have hz : z ≠ 0 := by
    have : (0 : ℚ) < z := lt_of_lt_of_le (by norm_num) h1
    exact ne_of_gt this
  simp [toScreenSpace, toDocumentSpace, div_mul_cancel₀ _ hz]

/-- Concrete instance of the round-trip at (100, 200) and zoom 1.5. -/
theorem screen_document_roundtrip_witness :
    (1 / 2 : ℚ) ≤ 3 / 2 ∧ (3 / 2 : ℚ) ≤ 2 ∧
    toScreenSpace (toDocumentSpace 100 200 (3 / 2)).1
      (toDocumentSpace 100 200 (3 / 2)).2 (3 / 2) = (100, 200) :=
  ⟨by norm_num, by norm_num,
   screen_document_roundtrip 100 200 (3 / 2) (by norm_num) (by norm_num)⟩

/-- Claim C4: for every text annotation stored at document position
(x, y) on a page of natural height H, a successful export draws its text
at PDF-space position (x, H - y). -/
theorem text_export_flips_y (pages : List ℚ) (s : EditorState)
    (ts : List DrawTextInstr) (imgs : List DrawImageInstr)
    (hexp : handleDownloadInstrs pages s = Option.some (ts, imgs))
    (i : ℕ) (a : TextAnn) (ha : s.textAnns.get? i = Option.some a) :
    ∃ hp instr, pageHeightFor pages a.pageNumber = Option.some hp ∧
      ts.get? i = Option.some instr ∧ instr.x = a.x ∧ instr.y = hp - a.y := by
  obtain ⟨hts, -⟩ := handleDownloadInstrs_parts hexp
  obtain ⟨b, hb, hget⟩ := mapOpt_get? hts i a ha
  rw [Option.map_eq_some'] at hb
  obtain ⟨hp, hhp, rfl⟩ := hb
  exact ⟨hp, textInstrAt hp a, hhp, hget, rfl, rfl⟩

/-- Concrete instance: the (50, 80) annotation on a height-792 page is
exported at PDF position (50, 712). -/
theorem text_export_flips_y_witness :
    stateC4.textAnns.get? 0 = Option.some textAnnC4 ∧
    (∃ hp instr, pageHeightFor [792] textAnnC4.pageNumber = Option.some hp ∧
      [textInstrAt 792 textAnnC4].get? 0 = Option.some instr ∧
      instr.x = textAnnC4.x ∧ instr.y = hp - textAnnC4.y) ∧
    (textInstrAt 792 textAnnC4).x = 50 ∧ (textInstrAt 792 textAnnC4).y = 712 :=
  ⟨rfl,
   text_export_flips_y [792] stateC4 [textInstrAt 792 textAnnC4] [] rfl 0 textAnnC4 rfl,
   by norm_num [textInstrAt, textAnnC4],
   by norm_num [textInstrAt, textAnnC4]⟩

/-- Claim C5: for every signature annotation stored at document position
(x, y) with stored height h on a page of natural height H, a successful
export draws its image at PDF-space position (x, H - y - h). -/
theorem image_export_offsets_height (pages : List ℚ) (s : EditorState)
    (ts : List DrawTextInstr) (imgs : List DrawImageInstr)
    (hexp : handleDownloadInstrs pages s = Option.some (ts, imgs))
    (i : ℕ) (a : SigAnn) (ha : s.signatureAnns.get? i = Option.some a) :
    ∃ hp instr, pageHeightFor pages a.pageNumber = Option.some hp ∧
      imgs.get? i = Option.some instr ∧ instr.x = a.x ∧
      instr.y = hp - a.y - a.height ∧
      instr.width = a.width ∧ instr.height = a.height := by
  obtain ⟨-, himgs⟩ := handleDownloadInstrs_parts hexp
  obtain ⟨b, hb, hget⟩ := mapOpt_get? himgs i a ha
  rw [Option.map_eq_some'] at hb
  obtain ⟨hp, hhp, rfl⟩ := hb
  exact ⟨hp, imageInstrAt hp a, hhp, hget, rfl, rfl, rfl, rfl⟩

/-- Concrete instance: the (50, 80) signature of height 100 on a
height-792 page is exported at PDF position (50, 612). -/
theorem image_export_offsets_height_witness :
    stateC5.signatureAnns.get? 0 = Option.some sigAnnC5 ∧
    (∃ hp instr, pageHeightFor [792] sigAnnC5.pageNumber = Option.some hp ∧
      [imageInstrAt 792 sigAnnC5].get? 0 = Option.some instr ∧
      instr.x = sigAnnC5.x ∧ instr.y = hp - sigAnnC5.y - sigAnnC5.height ∧
      instr.width = sigAnnC5.width ∧ instr.height = sigAnnC5.height) ∧
    (imageInstrAt 792 sigAnnC5).x = 50 ∧ (imageInstrAt 792 sigAnnC5).y = 612 :=
  ⟨rfl,
   image_export_offsets_height [792] stateC5 [] [imageInstrAt 792 sigAnnC5] rfl 0 sigAnnC5 rfl,
   by norm_num [imageInstrAt, sigAnnC5],
   by norm_num [imageInstrAt, sigAnnC5]⟩

/-- Counterexample to claim C1: the annotation whose stored font size
was adjusted to 12 is exported with a draw-text instruction of size 11,
not 12 — the export hard-codes size 11 and ignores the stored value. -/
theorem text_export_size_counterexample :
    fsOr textAnnC1.fontSize = 12 ∧
    handleDownloadInstrs [792] stateC1 = Option.some ([textInstrAt 792 textAnnC1], []) ∧
    (textInstrAt 792 textAnnC1).size = 11 ∧
    ((11 : ℤ) ≠ 12) :=
  ⟨rfl, rfl, rfl, by decide⟩

/-- Claim C1 as amended: every draw-text instruction a successful export
issues carries the fixed size 11, black fill rgb(0,0,0) and opacity
0.95, regardless of the annotation's stored font size. -/
theorem text_export_style_fixed (pages : List ℚ) (s : EditorState)
    (ts : List DrawTextInstr) (imgs : List DrawImageInstr)
    (hexp : handleDownloadInstrs pages s = Option.some (ts, imgs))
    (i : ℕ) (a : TextAnn) (ha : s.textAnns.get? i = Option.some a) :
    ∃ instr, ts.get? i = Option.some instr ∧ instr.text = a.text ∧
      instr.size = 11 ∧ instr.colorR = 0 ∧ instr.colorG = 0 ∧
      instr.colorB = 0 ∧ instr.opacity = 19 / 20 := by
  obtain ⟨hts, -⟩ := handleDownloadInstrs_parts hexp
  obtain ⟨b, hb, hget⟩ := mapOpt_get? hts i a ha
  rw [Option.map_eq_some'] at hb
  obtain ⟨hp, hhp, rfl⟩ := hb
  exact ⟨textInstrAt hp a, hget, rfl, rfl, rfl, rfl, rfl, rfl⟩

/-- Concrete instance: the size-12 annotation's instruction still has
size 11, black fill and opacity 0.95. -/
theorem text_export_style_fixed_witness :
    stateC1.textAnns.get? 0 = Option.some textAnnC1 ∧
    (∃ instr, [textInstrAt 792 textAnnC1].get? 0 = Option.some instr ∧
      instr.text = textAnnC1.text ∧ instr.size = 11 ∧ instr.colorR = 0 ∧
      instr.colorG = 0 ∧ instr.colorB = 0 ∧ instr.opacity = 19 / 20) :=
  ⟨rfl,
   text_export_style_fixed [792] stateC1 [textInstrAt 792 textAnnC1] [] rfl 0 textAnnC1 rfl⟩

/-- Counterexample to claim C2: with the signature tool active at zoom
1 on a 500x700 page surface, clicking at screen coordinates (10, 20)
and saving commits the signature at (250, 350) — the page surface's
center — not at the click's document-space position (10, 20). -/
theorem signature_click_counterexample :
    stateC2.activeTool = Tool.signature ∧ stateC2.scale = 1 ∧
    ((handleSignatureAdd "sig" Option.none
        (handlePageClick 10 20 0 0 500 700 stateC2)).signatureAnns.map
      (fun a => (a.x, a.y)) = [((250 : ℚ), (350 : ℚ))]) ∧
    ¬ ((handleSignatureAdd "sig" Option.none
        (handlePageClick 10 20 0 0 500 700 stateC2)).signatureAnns.map
      (fun a => (a.x, a.y)) = [((10 : ℚ) / 1, (20 : ℚ) / 1)]) := by
  refine ⟨rfl, rfl, ?_, ?_⟩
  · norm_num [handlePageClick, handleSignatureAdd, stateC2, emptyEditor]
  · intro hcontra
    norm_num [handlePageClick, handleSignatureAdd, stateC2, emptyEditor] at hcontra

/-- Claim C2 as amended: when the user clicks the page surface with the
signature tool active, the signature committed on save is stored at the
page surface's center converted to document space
(surfaceWidth / 2 / zoom, surfaceHeight / 2 / zoom), regardless of the
click coordinates; when no click occurred, saving uses the queried page
element's center converted the same way, or the fallback (300, 400)
when no page element exists. -/
theorem signature_commit_uses_center (s s2 s3 : EditorState)
    (cx cy l t w h pw ph : ℚ) (d d2 d3 : String) (pe : Option (ℚ × ℚ))
    (ha : s.activeTool = Tool.signature)
    (h2 : s2.editingPosition = Option.none)
    (h3 : s3.editingPosition = Option.none) :
    ((handleSignatureAdd d pe (handlePageClick cx cy l t w h s)).signatureAnns.map
        (fun a => (a.x, a.y))
      = s.signatureAnns.map (fun a => (a.x, a.y)) ++ [(w / 2 / s.scale, h / 2 / s.scale)]) ∧
    ((handleSignatureAdd d2 (Option.some (pw, ph)) s2).signatureAnns.map
        (fun a => (a.x, a.y))
      = s2.signatureAnns.map (fun a => (a.x, a.y)) ++ [(pw / 2 / s2.scale, ph / 2 / s2.scale)]) ∧
    ((handleSignatureAdd d3 Option.none s3).signatureAnns.map
        (fun a => (a.x, a.y))
      = s3.signatureAnns.map (fun a => (a.x, a.y)) ++ [((300 : ℚ), (400 : ℚ))]) := by
  refine ⟨?_, ?_, ?_⟩
  · simp [handlePageClick, ha, handleSignatureAdd]
  · simp [handleSignatureAdd, h2]
  · simp [handleSignatureAdd, h3]

/-- Concrete instance: the click at (10, 20) on the 500x700 surface at
zoom 1 commits at (250, 350); with no pending position, a 600x800 page
element gives (300, 400), and no page element gives the fallback
(300, 400). -/
theorem signature_commit_uses_center_witness :
    stateC2.activeTool = Tool.signature ∧
    emptyEditor.editingPosition = Option.none ∧
    (((handleSignatureAdd "s1" Option.none
        (handlePageClick 10 20 0 0 500 700 stateC2)).signatureAnns.map
        (fun a => (a.x, a.y))
      = stateC2.signatureAnns.map (fun a => (a.x, a.y))
        ++ [((500 : ℚ) / 2 / stateC2.scale, (700 : ℚ) / 2 / stateC2.scale)]) ∧
    (((handleSignatureAdd "s2" (Option.some (600, 800)) emptyEditor).signatureAnns.map
        (fun a => (a.x, a.y))
      = emptyEditor.signatureAnns.map (fun a => (a.x, a.y))
        ++ [((600 : ℚ) / 2 / emptyEditor.scale, (800 : ℚ) / 2 / emptyEditor.scale)]) ∧
    ((handleSignatureAdd "s3" Option.none emptyEditor).signatureAnns.map
        (fun a => (a.x, a.y))
      = emptyEditor.signatureAnns.map (fun a => (a.x, a.y)) ++ [((300 : ℚ), (400 : ℚ))]))) :=
  ⟨rfl, rfl,
   signature_commit_uses_center stateC2 emptyEditor emptyEditor
     10 20 0 0 500 700 600 800 "s1" "s2" "s3" Option.none rfl rfl rfl⟩

/-- Value of fsOr at an explicit non-zero integer. -/
theorem fsOr_some {v : ℤ} (hv : v ≠ 0) : fsOr (Option.some v) = v := by
  simp [fsOr, hv]

/-- One font-size button press never takes a size that is at least the
floor 8 below that floor. -/
theorem fs_floor_step (op : FSOp) (a : TextAnn) (h : 8 ≤ fsOr a.fontSize) :
    8 ≤ fsOr ((applyFSOp a op).fontSize) := by
  cases op with
  | inc =>
    have h0 : fsOr a.fontSize + 1 ≠ 0 := by omega
    simp only [applyFSOp, fsOr_some h0]
    omega
  | dec =>
    have h0 : max 8 (fsOr a.fontSize - 1) ≠ 0 := by
      have := le_max_left (8 : ℤ) (fsOr a.fontSize - 1)
      omega
    simp only [applyFSOp, fsOr_some h0]
    exact le_max_left _ _

/-- A sequence of font-size button presses preserves the floor 8. -/
theorem fs_floor_steps (ops : List FSOp) (a : TextAnn) (h : 8 ≤ fsOr a.fontSize) :
    8 ≤ fsOr ((applyFSOps ops a).fontSize) := by
  induction ops generalizing a with
  | nil => simpa [applyFSOps] using h
  | cons op ops ih =>
    have hstep := fs_floor_step op a h
    simpa [applyFSOps] using ih (applyFSOp a op) hstep

/-- Claim C6: starting from the default font size 11, no sequence of
font-size button presses produces a size below 8; a decrement at 8
leaves 8, and an increment always adds exactly 1 (no ceiling). -/
theorem fontSize_floor (ops : List FSOp) (a b c : TextAnn)
    (ha : fsOr a.fontSize = 11) (hb : fsOr b.fontSize = 8)
    (hc : 8 ≤ fsOr c.fontSize) :
    8 ≤ fsOr ((applyFSOps ops a).fontSize) ∧
    fsOr ((applyFSOp b FSOp.dec).fontSize) = 8 ∧
    fsOr ((applyFSOp c FSOp.inc).fontSize) = fsOr c.fontSize + 1 := by
  refine ⟨fs_floor_steps ops a (by omega), ?_, ?_⟩
  · simp only [applyFSOp, hb]
    norm_num [fsOr]
  · have h0 : fsOr c.fontSize + 1 ≠ 0 := by omega
    simp only [applyFSOp, fsOr_some h0]

/-- Concrete instance: five decrements from 11 end at the floor 8, not
below it. -/
theorem fontSize_floor_witness :
    fsOr textAnn11.fontSize = 11 ∧ fsOr textAnn8.fontSize = 8 ∧
    (8 : ℤ) ≤ fsOr textAnn11.fontSize ∧
    8 ≤ fsOr ((applyFSOps [FSOp.dec, FSOp.dec, FSOp.dec, FSOp.dec, FSOp.dec] textAnn11).fontSize) ∧
    fsOr ((applyFSOps [FSOp.dec, FSOp.dec, FSOp.dec, FSOp.dec, FSOp.dec] textAnn11).fontSize) = 8 :=
  ⟨rfl, rfl, by norm_num [textAnn11, fsOr],
   (fontSize_floor [FSOp.dec, FSOp.dec, FSOp.dec, FSOp.dec, FSOp.dec]
     textAnn11 textAnn8 textAnn11 rfl rfl (by norm_num [textAnn11, fsOr])).1,
   by norm_num [applyFSOps, applyFSOp, textAnn11, fsOr, List.foldl]⟩

/-- One shrink button press leaves both dimensions at or above the
50x25 floor. -/
theorem shrink_preserves_floor (a : SigAnn) :
    50 ≤ (shrinkSig a).width ∧ 25 ≤ (shrinkSig a).height :=
  ⟨le_max_left _ _, le_max_left _ _⟩

/-- Claim C7: from the initial 200x100 signature size, any number of
shrink presses (each scaling by 0.9 with the Math.max floor) never
yields a width below 50 or a height below 25. -/
theorem signature_shrink_floor (a : SigAnn)
    (hw : a.width = 200) (hh : a.height = 100) (n : ℕ) :
    50 ≤ (shrinkSig^[n] a).width ∧ 25 ≤ (shrinkSig^[n] a).height := by
  cases n with
  | zero =>
    rw [Function.iterate_zero_apply, hw, hh]
    norm_num
  | succ n =>
    rw [Function.iterate_succ_apply']
    exact shrink_preserves_floor _

/-- Concrete instance: after three shrink presses from 200x100 the
floor still holds. -/
theorem signature_shrink_floor_witness :
    sigC7.width = 200 ∧ sigC7.height = 100 ∧
    50 ≤ (shrinkSig^[3] sigC7).width ∧ 25 ≤ (shrinkSig^[3] sigC7).height :=
  ⟨rfl, rfl, (signature_shrink_floor sigC7 rfl rfl 3).1,
   (signature_shrink_floor sigC7 rfl rfl 3).2⟩

/-- Claim C8: a file whose MIME type is not application/pdf is rejected
with the destructive invalid-file toast, the app state is unchanged (the
document source stays unset), and the editor — which mounts the page
renderer — is not shown. -/
theorem upload_reject_non_pdf (f : UploadFile) (s : AppState)
    (hm : f.mime ≠ "application/pdf") (hs : s.selectedFile = Option.none) :
    (validateAndUploadFile f s).1 = s ∧
    (validateAndUploadFile f s).2 = [invalidToast] ∧
    editorShown (validateAndUploadFile f s).1 = false := by
  rw [validateAndUploadFile, if_pos hm]
  exact ⟨rfl, rfl, by simp [editorShown, hs]⟩

/-- Concrete instance: uploading notes.txt (text/plain) leaves the app
state untouched and the editor hidden, raising only the invalid toast. -/
theorem upload_reject_non_pdf_witness :
    fileTxt.mime ≠ "application/pdf" ∧ appEmpty.selectedFile = Option.none ∧
    ((validateAndUploadFile fileTxt appEmpty).1 = appEmpty ∧
     (validateAndUploadFile fileTxt appEmpty).2 = [invalidToast] ∧
     editorShown (validateAndUploadFile fileTxt appEmpty).1 = false) :=
  ⟨by decide, rfl, upload_reject_non_pdf fileTxt appEmpty (by decide) rfl⟩

/-- Claim C9: while a drag session is open on annotation index i of the
dragged kind, a pointer move over the surface rect sets only that
annotation's position to ((pointerX - left) / zoom,
(pointerY - top) / zoom), leaving the other collection and every other
index unchanged, and pointer-up only closes the session, keeping every
annotation at its last computed position. -/
theorem drag_moves_only_dragged (s : EditorState) (i j : ℕ) (cx cy l t : ℚ)
    (hd : s.draggedAnn = Option.some i) :
    (s.draggedType = DragKind.signature →
      (handleMouseMove cx cy (Option.some (l, t)) s).textAnns = s.textAnns ∧
      (handleMouseMove cx cy (Option.some (l, t)) s).signatureAnns.get? j =
        (s.signatureAnns.get? j).map (fun a =>
          if j = i then { a with x := (cx - l) / s.scale, y := (cy - t) / s.scale } else a)) ∧
    (s.draggedType = DragKind.text →
      (handleMouseMove cx cy (Option.some (l, t)) s).signatureAnns = s.signatureAnns ∧
      (handleMouseMove cx cy (Option.some (l, t)) s).textAnns.get? j =
        (s.textAnns.get? j).map (fun a =>
          if j = i then { a with x := (cx - l) / s.scale, y := (cy - t) / s.scale } else a)) ∧
    (handleMouseUp (handleMouseMove cx cy (Option.some (l, t)) s)).draggedAnn = Option.none ∧
    (handleMouseUp (handleMouseMove cx cy (Option.some (l, t)) s)).textAnns =
      (handleMouseMove cx cy (Option.some (l, t)) s).textAnns ∧
    (handleMouseUp (handleMouseMove cx cy (Option.some (l, t)) s)).signatureAnns =
      (handleMouseMove cx cy (Option.some (l, t)) s).signatureAnns := by
  refine ⟨?_, ?_, rfl, rfl, rfl⟩
  · intro hk
    constructor
    · simp [handleMouseMove, hd, hk]
    · simp only [handleMouseMove, hd, hk]
      exact jsMapIdx_get? _ j _
  · intro hk
    constructor
    · simp [handleMouseMove, hd, hk]
    · simp only [handleMouseMove, hd, hk]
      exact jsMapIdx_get? _ j _

/-- Concrete instance: dragging signature index 0 of state9 to pointer
position (300, 400) at zoom 1 and releasing stores exactly (300, 400)
and leaves the other signature annotation at (3, 4). -/
theorem drag_moves_only_dragged_witness :
    state9.draggedAnn = Option.some 0 ∧
    state9.draggedType = DragKind.signature ∧
    ((handleMouseMove 300 400 (Option.some (0, 0)) state9).signatureAnns.get? 0 =
      (state9.signatureAnns.get? 0).map (fun a =>
        if 0 = 0 then { a with x := ((300 : ℚ) - 0) / state9.scale,
                               y := ((400 : ℚ) - 0) / state9.scale } else a)) ∧
    ((handleMouseMove 300 400 (Option.some (0, 0)) state9).signatureAnns.get? 1 =
      (state9.signatureAnns.get? 1).map (fun a =>
        if 1 = 0 then { a with x := ((300 : ℚ) - 0) / state9.scale,
                               y := ((400 : ℚ) - 0) / state9.scale } else a)) ∧
    (handleMouseUp (handleMouseMove 300 400 (Option.some (0, 0)) state9)).draggedAnn
      = Option.none ∧
    ((handleMouseMove 300 400 (Option.some (0, 0)) state9).signatureAnns.map
      (fun a => (a.x, a.y)) = [((300 : ℚ), (400 : ℚ)), ((3 : ℚ), (4 : ℚ))]) :=
  ⟨rfl, rfl,
   ((drag_moves_only_dragged state9 0 0 300 400 0 0 rfl).1 rfl).2,
   ((drag_moves_only_dragged state9 0 1 300 400 0 0 rfl).1 rfl).2,
   (drag_moves_only_dragged state9 0 0 300 400 0 0 rfl).2.2.1,
   by norm_num [handleMouseMove, state9, emptyEditor, jsMapIdx, mapIdxFrom, sigA, sigB]⟩

/-- Claim C10: with the text prompt open at a pending position,
submitting a string that trims to empty changes nothing at all, while
submitting a string with a non-whitespace character appends an
annotation holding the submitted string verbatim (untrimmed) at the
pending position with font size 11, then clears the prompt, the pending
position and the active tool. -/
theorem text_submit_trim_gate (s : EditorState) (p : ℚ × ℚ)
    (hp : s.editingPosition = Option.some p) :
    (jsTrim s.newTextAnn = "" → handleTextSubmit s = s) ∧
    (jsTrim s.newTextAnn ≠ "" →
      (handleTextSubmit s).textAnns = s.textAnns ++
        [{ x := p.1, y := p.2, text := s.newTextAnn,
           pageNumber := s.pageNumber, fontSize := Option.some 11 }] ∧
      (handleTextSubmit s).activeTool = Tool.none ∧
      (handleTextSubmit s).editingPosition = Option.none ∧
      (handleTextSubmit s).newTextAnn = "" ∧
      (handleTextSubmit s).signatureAnns = s.signatureAnns) := by
  constructor
  · intro he
    simp [handleTextSubmit, he]
  · intro hne
    simp [handleTextSubmit, hne, hp]

/-- Concrete instance: submitting the string with surrounding
whitespace appends it verbatim, untrimmed, at the pending (5, 6). -/
theorem text_submit_trim_gate_witness :
    state10.editingPosition = Option.some (5, 6) ∧
    jsTrim state10.newTextAnn ≠ "" ∧
    ((handleTextSubmit state10).textAnns = state10.textAnns ++
      [{ x := 5, y := 6, text := "  hi  ", pageNumber := 1,
         fontSize := Option.some 11 }]) ∧
    (handleTextSubmit state10).activeTool = Tool.none :=
  ⟨rfl, by decide,
   ((text_submit_trim_gate state10 (5, 6) rfl).2 (by decide)).1,
   ((text_submit_trim_gate state10 (5, 6) rfl).2 (by decide)).2.1⟩

end PdfEdit
